import Mathlib

/-!
Verification of the Molarity simulation's reactive solution model and
region-classification code, as a shallow embedding over exact rationals.

The embedding follows the source files:
* `src/js/molarity/MolarityScreen.js` (the `Solution` model: derived
  concentration, precipitate amount, saturation, `reset`),
* `src/js/molarity/view/describers/VolumeDescriber.js` (`volumeToIndex` and
  the volume-region transition tracking),
* `src/js/molarity/view/describers/ConcentrationDescriber.js`
  (`concentrationToIndex`, `solidsToIndex`, transition tracking),
* `src/unnamed/part_001` (the second, older `volumeToIndex` bucket table),
* `src/unnamed/part_000` (`SoluteSelectionSoundGenerator` reset gating),
* `src/js/molarity/view/VerticalSlider.js` (slider `Track`/`Thumb` handlers
  that clamp and round before storing, and the solute-change alert wiring).

Numbers are modelled as exact rationals; `DOT/Util.toFixedNumber` is
modelled as round-half-up to a fixed number of decimal places, which agrees
with the library's symmetric rounding on the nonnegative values that occur
in this model.
-/

namespace Molarity

/-- Modelled from the spec: `MConstants.CONCENTRATION_DECIMAL_PLACES` is not
under `src/`; the spec fixes the concentration display precision at 3
decimal places. -/
def CONCENTRATION_DECIMAL_PLACES : ℕ := 3

/-- Modelled from the spec: `MConstants.SOLUTE_AMOUNT_RANGE` is not under
`src/`; the spec gives the solute-amount domain 0 to 7.330 moles. -/
def MAX_SOLUTE_AMOUNT : ℚ := 7.330

/-- Modelled from the spec: `MConstants.SOLUTION_VOLUME_RANGE` is not under
`src/`; the spec gives the volume domain 0.200 to 1.000 liters. -/
def MIN_VOLUME : ℚ := 0.200

/-- Modelled from the spec: upper end of the solution volume domain. -/
def MAX_VOLUME : ℚ := 1.000

/-- `DOT/Util.toFixedNumber value decimalPlaces` on exact rationals: round
to `dp` decimal places, half up (on the nonnegative inputs used by this
model this agrees with the library's round-half-away-from-zero). -/
def toFixedNumber (x : ℚ) (dp : ℕ) : ℚ :=
  (⌊x * 10 ^ dp + 1 / 2⌋ : ℚ) / 10 ^ dp

/-- `DOT/Util.clamp( value, min, max )`. -/
def clamp (value lo hi : ℚ) : ℚ :=
  if value < lo then lo else if value > hi then hi else value

/-- A solute, reduced to the one field the solution model reads. -/
structure Solute where
  saturatedConcentration : ℚ
deriving DecidableEq

/-- The `Solution` model state (MolarityScreen.js, `Solution`): the three
independent inputs plus the construction-time initial values that
`Property.reset` restores. -/
structure Solution where
  solute : Solute
  soluteAmount : ℚ
  volume : ℚ
  initSolute : Solute
  initSoluteAmount : ℚ
  initVolume : ℚ
deriving DecidableEq

/-- The derivation of `concentrationProperty` (MolarityScreen.js lines
86-94): `toFixedNumber( volume > 0 ? min( saturatedConcentration,
soluteAmount / volume ) : 0, CONCENTRATION_DECIMAL_PLACES )`. -/
def concentrationOf (solute : Solute) (soluteAmount volume : ℚ) : ℚ :=
  toFixedNumber
    (if 0 < volume then min solute.saturatedConcentration (soluteAmount / volume) else 0)
    CONCENTRATION_DECIMAL_PLACES

/-- The derived concentration of a solution state. -/
def Solution.concentration (s : Solution) : ℚ :=
  concentrationOf s.solute s.soluteAmount s.volume

/-- `Solution.computePrecipitateAmount` (MolarityScreen.js lines 137-139):
`volume > 0 ? max( 0, volume * ( soluteAmount / volume -
saturatedConcentration ) ) : soluteAmount`. -/
def computePrecipitateAmount (volume soluteAmount saturatedConcentration : ℚ) : ℚ :=
  if 0 < volume then max 0 (volume * (soluteAmount / volume - saturatedConcentration))
  else soluteAmount

/-- The derivation of `precipitateAmountProperty` (MolarityScreen.js lines
97-104). -/
def Solution.precipitateAmount (s : Solution) : ℚ :=
  computePrecipitateAmount s.volume s.soluteAmount s.solute.saturatedConcentration

/-- `Solution.isSaturated` (MolarityScreen.js lines 119-121):
`precipitateAmountProperty.value !== 0`. -/
def Solution.isSaturated (s : Solution) : Bool :=
  decide (s.precipitateAmount ≠ 0)

/-- First step of `Solution.reset` (MolarityScreen.js line 113):
`soluteProperty.reset()`. -/
def Solution.resetSolute (s : Solution) : Solution :=
  { s with solute := s.initSolute }

/-- Second step of `Solution.reset` (line 114): `soluteAmountProperty.reset()`. -/
def Solution.resetSoluteAmount (s : Solution) : Solution :=
  { s with soluteAmount := s.initSoluteAmount }

/-- Third step of `Solution.reset` (line 115): `volumeProperty.reset()`. -/
def Solution.resetVolume (s : Solution) : Solution :=
  { s with volume := s.initVolume }

/-- `Solution.reset` (MolarityScreen.js lines 112-116): the three property
resets performed in sequence. -/
def Solution.reset (s : Solution) : Solution :=
  s.resetSolute.resetSoluteAmount.resetVolume

/-- The sequence of states an observer of the property system can see
during `reset()`: one state after each of the three sequential property
resets. -/
def Solution.resetStates (s : Solution) : List Solution :=
  [s.resetSolute, s.resetSolute.resetSoluteAmount, s.reset]

/-- How many times a derived property (concentration, precipitateAmount)
recomputes during a `reset()` pass: axon properties notify only when the
stored value actually changes, and each notification triggers one
recomputation of each derived property. -/
def Solution.resetRecomputeCount (s : Solution) : ℕ :=
  (if s.solute ≠ s.initSolute then 1 else 0) +
  (if s.soluteAmount ≠ s.initSoluteAmount then 1 else 0) +
  (if s.volume ≠ s.initVolume then 1 else 0)

/-- `volumeToIndex` (VolumeDescriber.js lines 181-203): bucket table with
boundaries .200 / .350 / .499 / .500 / .750 / .999, where the "half full"
region 3 is claimed only by exact equality with .500. -/
def volumeToIndex (volume : ℚ) : ℕ :=
  if volume ≤ 0.200 then 0
  else if volume ≤ 0.350 then 1
  else if volume ≤ 0.499 then 2
  else if volume = 0.500 then 3
  else if volume ≤ 0.750 then 4
  else if volume ≤ 0.999 then 5
  else 6

/-- The second `volumeToIndex` (src/unnamed/part_001 lines 110-132): bucket
table with boundaries .220 / .330 / .410 / .530 / .780 / .960. -/
def volumeToIndexOld (volume : ℚ) : ℕ :=
  if volume ≤ 0.220 then 0
  else if volume ≤ 0.330 then 1
  else if volume ≤ 0.410 then 2
  else if volume ≤ 0.530 then 3
  else if volume ≤ 0.780 then 4
  else if volume ≤ 0.960 then 5
  else 6

/-- `volumeToIndex` restricted to the slider grid of whole millesimal
volumes, expressed on the numerator `k` (the volume being `k / 1000`). -/
def volumeGridIndex (k : ℕ) : ℕ :=
  if k ≤ 200 then 0
  else if k ≤ 350 then 1
  else if k ≤ 499 then 2
  else if k = 500 then 3
  else if k ≤ 750 then 4
  else if k ≤ 999 then 5
  else 6

/-- `concentrationToIndex` (ConcentrationDescriber.js lines 388-411):
`scaleIncrement = maxConcentration / (CONCENTRATION_STRINGS.length - 2)`
with 7 concentration strings. -/
def concentrationToIndex (maxConcentration concentration : ℚ) : ℕ :=
  let scaleIncrement := maxConcentration / 5
  if concentration ≤ 0.001 then 0
  else if concentration ≤ scaleIncrement then 1
  else if concentration ≤ 2 * scaleIncrement then 2
  else if concentration ≤ 3 * scaleIncrement then 3
  else if concentration ≤ 4 * scaleIncrement then 4
  else if concentration ≥ scaleIncrement * 5 then 6
  else 5

/-- `solidsToIndex` (ConcentrationDescriber.js lines 363-380):
`fraction = ( 5 - saturatedConcentration ) / SOLIDS_STRINGS.length` with 5
solids strings, and bucket bounds `k * fraction / 5`. -/
def solidsToIndex (precipitateAmount saturatedConcentration : ℚ) : ℕ :=
  let fraction := (5 - saturatedConcentration) / 5
  if precipitateAmount ≤ fraction / 5 then 0
  else if precipitateAmount ≤ 2 * fraction / 5 then 1
  else if precipitateAmount ≤ 3 * fraction / 5 then 2
  else if precipitateAmount ≤ 4 * fraction / 5 then 3
  else 4

/-- The transition-tracking state of `VolumeDescriber` (VolumeDescriber.js
lines 84-98): region index, just-changed flag, and direction flag (null at
startup and reset). -/
structure VolumeDescriberState where
  currentRegion : ℕ
  volumeRegionChanged : Bool
  volumeIncreased : Option Bool
deriving DecidableEq

/-- `VolumeDescriber` constructor initialization (lines 86-98). -/
def initVolumeDescriber (volume : ℚ) : VolumeDescriberState :=
  { currentRegion := volumeToIndex volume
    volumeRegionChanged := false
    volumeIncreased := none }

/-- The body of the `volumeProperty.link` handler (VolumeDescriber.js lines
100-108): recompute the region from the new value, compare with the stored
region, record the direction of change. -/
def updateVolumeDescriber (st : VolumeDescriberState) (oldValue newValue : ℚ) :
    VolumeDescriberState :=
  { currentRegion := volumeToIndex newValue
    volumeRegionChanged := volumeToIndex newValue != st.currentRegion
    volumeIncreased := some (decide (oldValue < newValue)) }

/-- Run a chain of volume updates: each update's `oldValue` is the previous
update's `newValue`, exactly as the property system delivers them. Returns
the describer state after each update. -/
def runVolumeUpdates : VolumeDescriberState → ℚ → List ℚ → List VolumeDescriberState
  | _, _, [] => []
  | st, prev, v :: rest =>
    updateVolumeDescriber st prev v ::
      runVolumeUpdates (updateVolumeDescriber st prev v) v rest

/-- The transition-tracking state of `ConcentrationDescriber` for the
concentration quantity (ConcentrationDescriber.js lines 122-149). -/
structure ConcentrationDescriberState where
  concentrationRegion : ℕ
  concentrationRegionChanged : Bool
  concentrationIncreased : Option Bool
  saturationStateChanged : Bool
deriving DecidableEq

/-- The body of the `concentrationProperty.lazyLink` handler
(ConcentrationDescriber.js lines 151-161). -/
def updateConcentrationDescriber (saturatedConcentration : ℚ)
    (st : ConcentrationDescriberState) (oldValue newValue : ℚ) :
    ConcentrationDescriberState :=
  { concentrationRegion := concentrationToIndex saturatedConcentration newValue
    concentrationRegionChanged :=
      concentrationToIndex saturatedConcentration newValue != st.concentrationRegion
    concentrationIncreased := some (decide (oldValue < newValue))
    saturationStateChanged :=
      decide (saturatedConcentration ≤ newValue) != decide (saturatedConcentration ≤ oldValue) }

/-- The slider `Track.handleEvent` / `ThumbDragHandler.drag` store step
(VerticalSlider.js lines 52-56 and 112-116): the incoming position-derived
value is clamped to the range and then rounded to the declared decimal
precision before being written to the property. -/
def sliderSetValue (x lo hi : ℚ) (dp : ℕ) : ℚ :=
  toFixedNumber (clamp x lo hi) dp

/-- The model's programmatic write path: `soluteAmountProperty`
(MolarityScreen.js lines 72-76) is a plain axon `NumberProperty` whose
`range` option only validates a written value; the property stores the
value unchanged, and nothing in the model clamps or rounds it. Clamping
and rounding exist only on the view's slider input path
(`sliderSetValue`). -/
def soluteAmountPropertySet (x : ℚ) : ℚ := x

/-- Modelled from the spec: `MolarityModel.resetInProgressProperty` is not
under `src/`; per the spec it is true for the whole `reset()` pass. The
events emitted when the solute changes, from the two solute-change
listeners in `src/`: `SoluteSelectionSoundGenerator` (src/unnamed/part_000
lines 41-46) plays only when no reset is in progress, while the
`soluteProperty.lazyLink` in MolarityScreenView (VerticalSlider.js lines
603-613) unconditionally enqueues a solute-changed utterance and, when the
saturation state just changed, a second utterance. -/
def soluteChangeEmissions (resetInProgress saturationStateChanged : Bool) : List String :=
  (if !resetInProgress then ["soluteSelectionSound"] else []) ++
    (["soluteChangedAlert"] ++
      (if saturationStateChanged then ["saturationStateChangedAlert"] else []))

/-! ### Helper lemmas about rounding -/

lemma toFixedNumber_nonneg (dp : ℕ) {x : ℚ} (hx : 0 ≤ x) : 0 ≤ toFixedNumber x dp := by
  unfold toFixedNumber
  have hp : (0 : ℚ) < 10 ^ dp := by positivity
  refine div_nonneg ?_ hp.le
  have h0 : (0 : ℤ) ≤ ⌊x * 10 ^ dp + 1 / 2⌋ := by
    refine Int.floor_nonneg.mpr ?_
    have : 0 ≤ x * 10 ^ dp := mul_nonneg hx hp.le
    linarith
  exact_mod_cast h0

lemma toFixedNumber_mono (dp : ℕ) {x y : ℚ} (h : x ≤ y) :
    toFixedNumber x dp ≤ toFixedNumber y dp := by
  unfold toFixedNumber
  have hp : (0 : ℚ) < 10 ^ dp := by positivity
  have hmul : x * 10 ^ dp + 1 / 2 ≤ y * 10 ^ dp + 1 / 2 := by
    have := mul_le_mul_of_nonneg_right h hp.le
    linarith
  have hfloor : ⌊x * 10 ^ dp + 1 / 2⌋ ≤ ⌊y * 10 ^ dp + 1 / 2⌋ := Int.floor_mono hmul
  have hcast : ((⌊x * 10 ^ dp + 1 / 2⌋ : ℤ) : ℚ) ≤ ((⌊y * 10 ^ dp + 1 / 2⌋ : ℤ) : ℚ) := by
    exact_mod_cast hfloor
  exact div_le_div_of_nonneg_right hcast hp.le

lemma toFixedNumber_eq_self {x : ℚ} {dp : ℕ} (h : (x * 10 ^ dp).den = 1) :
    toFixedNumber x dp = x := by
  unfold toFixedNumber
  have hp : (0 : ℚ) < 10 ^ dp := by positivity
  have hint : ((x * 10 ^ dp).num : ℚ) = x * 10 ^ dp := Rat.coe_int_num_of_den_eq_one h
  have hfloor : ⌊x * 10 ^ dp + 1 / 2⌋ = (x * 10 ^ dp).num := by
    rw [← hint, Int.floor_int_add]
    norm_num
  rw [hfloor, hint]
  field_simp

lemma solidsToIndex_eq (p sat : ℚ) : solidsToIndex p sat =
    if p ≤ ((5 - sat) / 5) / 5 then 0
    else if p ≤ 2 * ((5 - sat) / 5) / 5 then 1
    else if p ≤ 3 * ((5 - sat) / 5) / 5 then 2
    else if p ≤ 4 * ((5 - sat) / 5) / 5 then 3
    else 4 := rfl

lemma cast_div_thousand_le (k c : ℕ) : ((k : ℚ) / 1000 ≤ (c : ℚ) / 1000) ↔ k ≤ c := by
  rw [div_le_div_iff_of_pos_right (by norm_num : (0 : ℚ) < 1000)]
  exact_mod_cast Iff.rfl

lemma cast_div_thousand_eq (k c : ℕ) : ((k : ℚ) / 1000 = (c : ℚ) / 1000) ↔ k = c := by
  rw [div_left_inj' (by norm_num : (1000 : ℚ) ≠ 0)]
  exact_mod_cast Iff.rfl

lemma volumeToIndex_grid (k : ℕ) : volumeToIndex ((k : ℚ) / 1000) = volumeGridIndex k := by
  unfold volumeToIndex volumeGridIndex
  rw [show (0.200 : ℚ) = ((200 : ℕ) : ℚ) / 1000 by norm_num,
    show (0.350 : ℚ) = ((350 : ℕ) : ℚ) / 1000 by norm_num,
    show (0.499 : ℚ) = ((499 : ℕ) : ℚ) / 1000 by norm_num,
    show (0.500 : ℚ) = ((500 : ℕ) : ℚ) / 1000 by norm_num,
    show (0.750 : ℚ) = ((750 : ℕ) : ℚ) / 1000 by norm_num,
    show (0.999 : ℚ) = ((999 : ℕ) : ℚ) / 1000 by norm_num]
  simp only [cast_div_thousand_le, cast_div_thousand_eq]

lemma volumeGridIndex_mono {k1 k2 : ℕ} (h : k1 ≤ k2) :
    volumeGridIndex k1 ≤ volumeGridIndex k2 := by
  unfold volumeGridIndex
  split_ifs <;> omega

/-- C1 (amended): for every valid state the derived concentration equals
`min(saturatedConcentration, soluteAmount / volume)` rounded to
`CONCENTRATION_DECIMAL_PLACES`, and it is nonnegative; the upper bound
`concentration ≤ saturatedConcentration` survives the rounding step
provided the saturated concentration is itself representable at that
precision (a multiple of 10^-3, as every catalog solute's value is) —
without that proviso rounding can push the concentration above the
saturation ceiling. -/
theorem concentration_formula_and_bounds (solute : Solute) (a v : ℚ)
    (hsat : 0 < solute.saturatedConcentration)
    (hrep : (solute.saturatedConcentration * 10 ^ CONCENTRATION_DECIMAL_PLACES).den = 1)
    (ha0 : 0 ≤ a) (ha1 : a ≤ MAX_SOLUTE_AMOUNT)
    (hv0 : MIN_VOLUME ≤ v) (hv1 : v ≤ MAX_VOLUME) :
    concentrationOf solute a v =
      toFixedNumber (min solute.saturatedConcentration (a / v))
        CONCENTRATION_DECIMAL_PLACES ∧
    0 ≤ concentrationOf solute a v ∧
    concentrationOf solute a v ≤ solute.saturatedConcentration := by
  have hv : 0 < v := lt_of_lt_of_le (by norm_num [MIN_VOLUME]) hv0
  have heq : concentrationOf solute a v =
      toFixedNumber (min solute.saturatedConcentration (a / v))
        CONCENTRATION_DECIMAL_PLACES := by
    unfold concentrationOf
    rw [if_pos hv]
  refine ⟨heq, ?_, ?_⟩
  · rw [heq]
    exact toFixedNumber_nonneg _ (le_min hsat.le (div_nonneg ha0 hv.le))
  · rw [heq]
    calc toFixedNumber (min solute.saturatedConcentration (a / v))
          CONCENTRATION_DECIMAL_PLACES
        ≤ toFixedNumber solute.saturatedConcentration CONCENTRATION_DECIMAL_PLACES :=
          toFixedNumber_mono _ (min_le_left _ _)
      _ = solute.saturatedConcentration := toFixedNumber_eq_self hrep

/-- Witness for C1 at the spec's Scenario B: saturated concentration 5,
6 moles in 1 liter; the rounded concentration is clamped at 5. -/
theorem concentration_formula_and_bounds_witness :
    concentrationOf ⟨5⟩ 6 1 =
      toFixedNumber (min (Solute.mk 5).saturatedConcentration (6 / 1))
        CONCENTRATION_DECIMAL_PLACES ∧
    0 ≤ concentrationOf ⟨5⟩ 6 1 ∧
    concentrationOf ⟨5⟩ 6 1 ≤ (Solute.mk 5).saturatedConcentration :=
  concentration_formula_and_bounds ⟨5⟩ 6 1 (by norm_num)
    (by norm_num [CONCENTRATION_DECIMAL_PLACES]) (by norm_num)
    (by norm_num [MAX_SOLUTE_AMOUNT]) (by norm_num [MIN_VOLUME])
    (by norm_num [MAX_VOLUME])

/-- Counterexample to C1 as stated: the solute with saturated
concentration 3/5000 = 0.0006 is a valid solute (positive saturation), yet
with 1 mole in 1 liter the concentration rounds to 0.001, which exceeds
the saturated concentration — the invariant does not survive rounding for
every solute with positive saturation. -/
theorem concentration_exceeds_saturation_cex :
    (0 : ℚ) < (Solute.mk (3 / 5000)).saturatedConcentration ∧
    (0 : ℚ) ≤ 1 ∧ (1 : ℚ) ≤ MAX_SOLUTE_AMOUNT ∧
    MIN_VOLUME ≤ (1 : ℚ) ∧ (1 : ℚ) ≤ MAX_VOLUME ∧
    concentrationOf ⟨3 / 5000⟩ 1 1 = 1 / 1000 ∧
    (Solute.mk (3 / 5000)).saturatedConcentration < 1 / 1000 := by
  refine ⟨by norm_num, by norm_num, by norm_num [MAX_SOLUTE_AMOUNT],
    by norm_num [MIN_VOLUME], by norm_num [MAX_VOLUME], ?_, by norm_num⟩
  norm_num [concentrationOf, toFixedNumber, CONCENTRATION_DECIMAL_PLACES]

/-- C3 (amended): `volumeToIndex` is a total deterministic function into
the region indices 0..6, it maps exactly 0.500 to the "half full" region
3, and it is monotone non-decreasing on the slider grid of whole
millesimal volumes covering the domain [0.200, 1.000]; on arbitrary real
volumes monotonicity fails in the gap (0.499, 0.500), whose points map to
region 4 above the region 3 assigned to 0.500. -/
theorem volumeToIndex_total_and_grid_monotone :
    (∀ v : ℚ, volumeToIndex v ≤ 6) ∧
    volumeToIndex 0.500 = 3 ∧
    (∀ k1 k2 : ℕ, 200 ≤ k1 → k1 ≤ k2 → k2 ≤ 1000 →
      volumeToIndex ((k1 : ℚ) / 1000) ≤ volumeToIndex ((k2 : ℚ) / 1000)) := by
  refine ⟨?_, ?_, ?_⟩
  · intro v
    unfold volumeToIndex
    split_ifs <;> omega
  · norm_num [volumeToIndex]
  · intro k1 k2 _ h12 _
    rw [volumeToIndex_grid, volumeToIndex_grid]
    exact volumeGridIndex_mono h12

/-- Witness for C3: half-full maps between the neighbouring grid volumes
0.499 and 0.501 monotonically. -/
theorem volumeToIndex_total_and_grid_monotone_witness :
    volumeToIndex ((499 : ℕ) / 1000 : ℚ) ≤ volumeToIndex ((501 : ℕ) / 1000 : ℚ) :=
  volumeToIndex_total_and_grid_monotone.2.2 499 501 (by norm_num) (by norm_num)
    (by norm_num)

/-- Counterexample to C3 as stated: `volumeToIndex` is not monotone
non-decreasing on the full volume domain — 0.4995 lies strictly below
0.500 inside [0.200, 1.000] yet is classified into region 4, above the
region 3 assigned to 0.500, because the "half full" bucket is claimed only
by exact equality with 0.500. -/
theorem volumeToIndex_not_monotone_cex :
    MIN_VOLUME ≤ (0.4995 : ℚ) ∧ (0.4995 : ℚ) < 0.500 ∧ (0.500 : ℚ) ≤ MAX_VOLUME ∧
    volumeToIndex 0.4995 = 4 ∧ volumeToIndex 0.500 = 3 ∧
    ¬ volumeToIndex 0.4995 ≤ volumeToIndex 0.500 := by
  refine ⟨by norm_num [MIN_VOLUME], by norm_num, by norm_num [MAX_VOLUME], ?_, ?_, ?_⟩ <;>
    norm_num [volumeToIndex]

/-- C2: for every state with positive volume, nonnegative solute amount and
positive saturated concentration, the derived precipitate amount is
nonnegative, it is positive exactly when `soluteAmount / volume` exceeds
the saturated concentration, and `isSaturated()` holds exactly when the
precipitate amount is positive. -/
theorem precipitate_invariants (s : Solution) (hv : 0 < s.volume)
    (ha : 0 ≤ s.soluteAmount) (hsat : 0 < s.solute.saturatedConcentration) :
    0 ≤ s.precipitateAmount ∧
    (0 < s.precipitateAmount ↔
      s.solute.saturatedConcentration < s.soluteAmount / s.volume) ∧
    (s.isSaturated = true ↔ 0 < s.precipitateAmount) := by
  have hpre : s.precipitateAmount =
      max 0 (s.volume * (s.soluteAmount / s.volume - s.solute.saturatedConcentration)) := by
    unfold Solution.precipitateAmount computePrecipitateAmount
    rw [if_pos hv]
  have h0 : 0 ≤ s.precipitateAmount := by rw [hpre]; exact le_max_left _ _
  refine ⟨h0, ?_, ?_⟩
  · rw [hpre]
    constructor
    · intro h
      rcases lt_max_iff.mp h with h' | h'
      · exact absurd h' (lt_irrefl 0)
      · have := (mul_pos_iff_of_pos_left hv).mp h'
        linarith
    · intro h
      exact lt_max_iff.mpr (Or.inr (mul_pos hv (by linarith)))
  · unfold Solution.isSaturated
    rw [decide_eq_true_iff]
    constructor
    · intro hne
      exact lt_of_le_of_ne h0 (Ne.symm hne)
    · intro h
      exact ne_of_gt h

/-- Witness for C2 at a concrete saturated state (saturated concentration
5, 6 moles of solute in 1 liter). -/
theorem precipitate_invariants_witness :
    0 ≤ (⟨⟨5⟩, 6, 1, ⟨5⟩, 6, 1⟩ : Solution).precipitateAmount ∧
    (0 < (⟨⟨5⟩, 6, 1, ⟨5⟩, 6, 1⟩ : Solution).precipitateAmount ↔
      (⟨⟨5⟩, 6, 1, ⟨5⟩, 6, 1⟩ : Solution).solute.saturatedConcentration <
        (⟨⟨5⟩, 6, 1, ⟨5⟩, 6, 1⟩ : Solution).soluteAmount /
          (⟨⟨5⟩, 6, 1, ⟨5⟩, 6, 1⟩ : Solution).volume) ∧
    ((⟨⟨5⟩, 6, 1, ⟨5⟩, 6, 1⟩ : Solution).isSaturated = true ↔
      0 < (⟨⟨5⟩, 6, 1, ⟨5⟩, 6, 1⟩ : Solution).precipitateAmount) :=
  precipitate_invariants ⟨⟨5⟩, 6, 1, ⟨5⟩, 6, 1⟩ (by decide) (by decide) (by decide)

/-- C5: `reset()` restores all three inputs to their construction-time
defaults and is idempotent: resetting twice gives exactly the state of
resetting once. -/
theorem reset_idempotent_restores_defaults (s : Solution) :
    s.reset.reset = s.reset ∧
    s.reset.solute = s.initSolute ∧
    s.reset.soluteAmount = s.initSoluteAmount ∧
    s.reset.volume = s.initVolume :=
  ⟨rfl, rfl, rfl, rfl⟩

/-- C4 (amended): `reset()` restores the three inputs by resetting the
three properties in sequence (solute, then soluteAmount, then volume): the
observable trace contains an intermediate state with only the solute
restored and another with only solute and soluteAmount restored, the final
state has all three restored, and each derived value is recomputed once
per input whose stored value actually changes — up to three times per
reset call, not exactly once per call. -/
theorem reset_sequential_not_atomic (s : Solution) :
    (∃ s1 s2, s.resetStates = [s1, s2, s.reset] ∧
      s1.solute = s.initSolute ∧ s1.soluteAmount = s.soluteAmount ∧
      s1.volume = s.volume ∧
      s2.solute = s.initSolute ∧ s2.soluteAmount = s.initSoluteAmount ∧
      s2.volume = s.volume) ∧
    s.reset.solute = s.initSolute ∧ s.reset.soluteAmount = s.initSoluteAmount ∧
    s.reset.volume = s.initVolume ∧
    s.resetRecomputeCount ≤ 3 ∧
    (s.solute ≠ s.initSolute → s.soluteAmount ≠ s.initSoluteAmount →
      s.volume ≠ s.initVolume → s.resetRecomputeCount = 3) := by
  refine ⟨⟨s.resetSolute, s.resetSolute.resetSoluteAmount,
    rfl, rfl, rfl, rfl, rfl, rfl, rfl⟩, rfl, rfl, rfl, ?_, ?_⟩
  · unfold Solution.resetRecomputeCount
    split_ifs <;> norm_num
  · intro h1 h2 h3
    unfold Solution.resetRecomputeCount
    rw [if_pos h1, if_pos h2, if_pos h3]

/-- Witness for C4 at a state whose three inputs all differ from their
defaults: the derived values recompute three times during the reset. -/
theorem reset_sequential_not_atomic_witness :
    Solution.resetRecomputeCount ⟨⟨1⟩, 2, 3, ⟨4⟩, 5, 6⟩ = 3 :=
  (reset_sequential_not_atomic ⟨⟨1⟩, 2, 3, ⟨4⟩, 5, 6⟩).2.2.2.2.2
    (by simp [Solute.mk.injEq]) (by norm_num) (by norm_num)

/-- Counterexample to C4 as stated: starting from solute of saturated
concentration 1/2, 5 moles, 1 liter, with defaults solute 5, 1 mole,
1/2 liter, the reset pass exposes an intermediate state in which only the
solute has been restored (its solute amount still differs from the
default), whose derived concentration (5) differs both from the
pre-reset concentration (1/2) and from the post-reset concentration (2) —
so observers can see a partially-restored state — and the derived values
are recomputed 3 times during this reset, not exactly once. -/
theorem reset_not_atomic_cex :
    Solution.resetSolute ⟨⟨1 / 2⟩, 5, 1, ⟨5⟩, 1, 1 / 2⟩ ∈
      Solution.resetStates ⟨⟨1 / 2⟩, 5, 1, ⟨5⟩, 1, 1 / 2⟩ ∧
    (Solution.resetSolute ⟨⟨1 / 2⟩, 5, 1, ⟨5⟩, 1, 1 / 2⟩).solute =
      (⟨⟨1 / 2⟩, 5, 1, ⟨5⟩, 1, 1 / 2⟩ : Solution).initSolute ∧
    (Solution.resetSolute ⟨⟨1 / 2⟩, 5, 1, ⟨5⟩, 1, 1 / 2⟩).soluteAmount ≠
      (⟨⟨1 / 2⟩, 5, 1, ⟨5⟩, 1, 1 / 2⟩ : Solution).initSoluteAmount ∧
    Solution.concentration (Solution.resetSolute ⟨⟨1 / 2⟩, 5, 1, ⟨5⟩, 1, 1 / 2⟩) ≠
      Solution.concentration (⟨⟨1 / 2⟩, 5, 1, ⟨5⟩, 1, 1 / 2⟩ : Solution) ∧
    Solution.concentration (Solution.resetSolute ⟨⟨1 / 2⟩, 5, 1, ⟨5⟩, 1, 1 / 2⟩) ≠
      Solution.concentration (Solution.reset ⟨⟨1 / 2⟩, 5, 1, ⟨5⟩, 1, 1 / 2⟩) ∧
    Solution.resetRecomputeCount ⟨⟨1 / 2⟩, 5, 1, ⟨5⟩, 1, 1 / 2⟩ = 3 ∧ (3 : ℕ) ≠ 1 := by
  refine ⟨by simp [Solution.resetStates], rfl, by norm_num [Solution.resetSolute], ?_, ?_,
    by norm_num [Solution.resetRecomputeCount, Solute.mk.injEq], by norm_num⟩ <;>
    norm_num [Solution.concentration, concentrationOf, toFixedNumber,
      Solution.resetSolute, Solution.reset, Solution.resetSoluteAmount,
      Solution.resetVolume, CONCENTRATION_DECIMAL_PLACES]

lemma runVolumeUpdates_getD (vs : List ℚ) :
    ∀ (st : VolumeDescriberState) (prev : ℚ), st.currentRegion = volumeToIndex prev →
    ∀ i, i < vs.length →
      ((runVolumeUpdates st prev vs).getD i (initVolumeDescriber 0)).currentRegion
          = volumeToIndex (vs.getD i 0) ∧
      (((runVolumeUpdates st prev vs).getD i (initVolumeDescriber 0)).volumeRegionChanged = true
          ↔ volumeToIndex (vs.getD i 0) ≠ volumeToIndex ((prev :: vs).getD i 0)) ∧
      ((runVolumeUpdates st prev vs).getD i (initVolumeDescriber 0)).volumeIncreased
          = some (decide ((prev :: vs).getD i 0 < vs.getD i 0)) := by
  induction vs with
  | nil =>
    intro st prev _ i hi
    simp at hi
  | cons v rest ih =>
    intro st prev hinv i hi
    cases i with
    | zero =>
      refine ⟨rfl, ?_, rfl⟩
      show (volumeToIndex v != st.currentRegion) = true ↔
        volumeToIndex v ≠ volumeToIndex prev
      rw [hinv, bne_iff_ne]
    | succ j =>
      have hj : j < rest.length := by simpa using hi
      simpa [runVolumeUpdates] using ih (updateVolumeDescriber st prev v) v rfl j hj

/-- C6: along any chain of value updates (each carrying a new value
different from the old one, as the property system guarantees), after each
update the volume describer's `volumeRegionChanged` flag is true exactly
when the classified region of the new value differs from that of the old
value, `volumeIncreased` records exactly whether the value increased, and
the stored `currentRegion` always equals `volumeToIndex` of the last-seen
value; likewise one step of the concentration describer's update handler
sets its region, change flag, direction flag and saturation-transition
flag from the old and new values, given that the stored region tracked the
old value. -/
theorem region_transition_flags :
    (∀ (v0 : ℚ) (vs : List ℚ), List.Chain' (fun a b => a ≠ b) (v0 :: vs) →
      ∀ i, i < vs.length →
        ((runVolumeUpdates (initVolumeDescriber v0) v0 vs).getD i
            (initVolumeDescriber 0)).currentRegion = volumeToIndex (vs.getD i 0) ∧
        (((runVolumeUpdates (initVolumeDescriber v0) v0 vs).getD i
            (initVolumeDescriber 0)).volumeRegionChanged = true ↔
          volumeToIndex (vs.getD i 0) ≠ volumeToIndex ((v0 :: vs).getD i 0)) ∧
        ((runVolumeUpdates (initVolumeDescriber v0) v0 vs).getD i
            (initVolumeDescriber 0)).volumeIncreased
          = some (decide ((v0 :: vs).getD i 0 < vs.getD i 0))) ∧
    (∀ (sat : ℚ) (st : ConcentrationDescriberState) (oldV newV : ℚ),
      st.concentrationRegion = concentrationToIndex sat oldV →
        ((updateConcentrationDescriber sat st oldV newV).concentrationRegionChanged = true ↔
          concentrationToIndex sat newV ≠ concentrationToIndex sat oldV) ∧
        (updateConcentrationDescriber sat st oldV newV).concentrationIncreased =
          some (decide (oldV < newV)) ∧
        (updateConcentrationDescriber sat st oldV newV).concentrationRegion =
          concentrationToIndex sat newV ∧
        ((updateConcentrationDescriber sat st oldV newV).saturationStateChanged = true ↔
          decide (sat ≤ newV) ≠ decide (sat ≤ oldV))) := by
  constructor
  · intro v0 vs _ i hi
    exact runVolumeUpdates_getD vs (initVolumeDescriber v0) v0 rfl i hi
  · intro sat st oldV newV hinv
    refine ⟨?_, rfl, rfl, ?_⟩
    · show (concentrationToIndex sat newV != st.concentrationRegion) = true ↔
        concentrationToIndex sat newV ≠ concentrationToIndex sat oldV
      rw [hinv, bne_iff_ne]
    · show (decide (sat ≤ newV) != decide (sat ≤ oldV)) = true ↔
        decide (sat ≤ newV) ≠ decide (sat ≤ oldV)
      rw [bne_iff_ne]

/-- Witness for C6: a single volume update from 0.300 to 0.600 and a
single concentration update from 1 to 2 at saturation 5. -/
theorem region_transition_flags_witness :
    ((runVolumeUpdates (initVolumeDescriber (300 / 1000)) (300 / 1000)
        [600 / 1000]).getD 0 (initVolumeDescriber 0)).currentRegion =
      volumeToIndex ([(600 : ℚ) / 1000].getD 0 0) ∧
    (updateConcentrationDescriber 5 ⟨concentrationToIndex 5 1, false, none, false⟩
        1 2).concentrationIncreased = some (decide ((1 : ℚ) < 2)) :=
  ⟨(region_transition_flags.1 (300 / 1000) [600 / 1000]
      (by norm_num [List.chain'_cons, List.chain'_singleton]) 0 (by norm_num)).1,
   (region_transition_flags.2 5 ⟨concentrationToIndex 5 1, false, none, false⟩
      1 2 rfl).2.1⟩

/-- C7 (amended): on a solute change during a reset pass the gated
producer stays silent but the ungated one does not: the solute selection
sound generator checks the reset-in-progress flag and plays only outside a
reset, while the solute-changed alert producer in MolarityScreenView has
no reset gating and enqueues its utterance (and, on a saturation
transition, a second one) even while a reset is in progress. -/
theorem reset_gating_split (r sc : Bool) :
    ("soluteSelectionSound" ∈ soluteChangeEmissions r sc ↔ r = false) ∧
    "soluteChangedAlert" ∈ soluteChangeEmissions r sc ∧
    ("saturationStateChangedAlert" ∈ soluteChangeEmissions r sc ↔ sc = true) := by
  cases r <;> cases sc <;> refine ⟨?_, ?_, ?_⟩ <;> simp [soluteChangeEmissions]

/-- Counterexample to C7 as stated: with the reset-in-progress flag set, a
solute change still produces the solute-changed alert — the emission list
of a reset-time solute change is not empty, so not every alert producer is
gated by the flag. -/
theorem reset_alert_not_gated_cex :
    "soluteChangedAlert" ∈ soluteChangeEmissions true false ∧
    "soluteSelectionSound" ∉ soluteChangeEmissions true false ∧
    soluteChangeEmissions true false ≠ [] := by
  refine ⟨?_, ?_, ?_⟩ <;> simp [soluteChangeEmissions]

/-- The value stored by the slider handlers for an arbitrary incoming
value `x` — `toFixedNumber( clamp( x, lo, hi ), dp )` — equals
`clamp( round( x ), lo, hi )` whenever the range endpoints are themselves
representable at the declared decimal precision (as the configured ranges
0..7.330 and 0.200..1.000 are at 3 decimal places). -/
lemma slider_round_trip (x lo hi : ℚ) (dp : ℕ) (hlohi : lo ≤ hi)
    (hlo : (lo * 10 ^ dp).den = 1) (hhi : (hi * 10 ^ dp).den = 1) :
    sliderSetValue x lo hi dp = clamp (toFixedNumber x dp) lo hi := by
  unfold sliderSetValue clamp
  by_cases h1 : x < lo
  · rw [if_pos h1, toFixedNumber_eq_self hlo]
    have hle : toFixedNumber x dp ≤ lo := by
      have := toFixedNumber_mono dp (le_of_lt h1)
      rwa [toFixedNumber_eq_self hlo] at this
    by_cases h2 : toFixedNumber x dp < lo
    · rw [if_pos h2]
    · have heq : toFixedNumber x dp = lo := le_antisymm hle (not_lt.mp h2)
      rw [if_neg h2, if_neg (by rw [heq]; exact not_lt.mpr hlohi), heq]
  · by_cases h2 : x > hi
    · rw [if_neg h1, if_pos h2, toFixedNumber_eq_self hhi]
      have hge : hi ≤ toFixedNumber x dp := by
        have := toFixedNumber_mono dp (le_of_lt h2)
        rwa [toFixedNumber_eq_self hhi] at this
      rw [if_neg (not_lt.mpr (le_trans hlohi hge))]
      by_cases h3 : toFixedNumber x dp > hi
      · rw [if_pos h3]
      · rw [if_neg h3, le_antisymm (not_lt.mp h3) hge]
    · rw [if_neg h1, if_neg h2]
      have hlox : lo ≤ toFixedNumber x dp := by
        have := toFixedNumber_mono dp (not_lt.mp h1)
        rwa [toFixedNumber_eq_self hlo] at this
      have hxhi : toFixedNumber x dp ≤ hi := by
        have := toFixedNumber_mono dp (not_lt.mp h2)
        rwa [toFixedNumber_eq_self hhi] at this
      rw [if_neg (not_lt.mpr hlox), if_neg (not_lt.mpr hxhi)]

/-- C8 (amended): the model itself does not sanitize programmatic writes —
the solute-amount property stores a written value unchanged, its range
option being validation only — while the slider input path does: the
`Track`/`Thumb` handlers store `toFixedNumber( clamp( x, lo, hi ), dp )`,
which equals the claimed `clamp( round( x ), lo, hi )` whenever the range
endpoints are representable at the declared decimal precision (as the
configured ranges are), so the round-trip law holds for slider-driven
writes but not for arbitrary programmatic ones. -/
theorem model_raw_slider_sanitized (x lo hi : ℚ) (dp : ℕ) (hlohi : lo ≤ hi)
    (hlo : (lo * 10 ^ dp).den = 1) (hhi : (hi * 10 ^ dp).den = 1) :
    soluteAmountPropertySet x = x ∧
    sliderSetValue x lo hi dp = clamp (toFixedNumber x dp) lo hi :=
  ⟨rfl, slider_round_trip x lo hi dp hlohi hlo hhi⟩

/-- Witness for C8 on the solute-amount range 0..7.330 at 3 decimal
places with an out-of-range input 10. -/
theorem model_raw_slider_sanitized_witness :
    soluteAmountPropertySet 10 = 10 ∧
    sliderSetValue 10 0 7.330 3 = clamp (toFixedNumber 10 3) 0 7.330 :=
  model_raw_slider_sanitized 10 0 7.330 3 (by norm_num) (by norm_num) (by norm_num)

/-- Counterexample to C8 as stated: the model accepts programmatic writes
without clamping or rounding. The out-of-range write 10 is stored as 10,
not the claimed clamp(round(10)) = 7.330; the over-precise in-range write
1/3 is stored as 1/3, not the claimed 3-decimal rounding 0.333. -/
theorem model_set_unsanitized_cex :
    soluteAmountPropertySet 10 = 10 ∧
    clamp (toFixedNumber 10 3) 0 MAX_SOLUTE_AMOUNT = MAX_SOLUTE_AMOUNT ∧
    soluteAmountPropertySet 10 ≠ clamp (toFixedNumber 10 3) 0 MAX_SOLUTE_AMOUNT ∧
    soluteAmountPropertySet (1 / 3) = 1 / 3 ∧
    clamp (toFixedNumber (1 / 3) 3) 0 MAX_SOLUTE_AMOUNT = 333 / 1000 ∧
    soluteAmountPropertySet (1 / 3) ≠ clamp (toFixedNumber (1 / 3) 3) 0 MAX_SOLUTE_AMOUNT := by
  norm_num [soluteAmountPropertySet, clamp, toFixedNumber, MAX_SOLUTE_AMOUNT]

/-- C9: the two volume bucket tables disagree inside the volume domain: at
0.210 liters the VolumeDescriber.js table gives region 1 while the
src/unnamed/part_001 table gives region 0. -/
theorem volume_bucket_tables_disagree :
    MIN_VOLUME ≤ (0.210 : ℚ) ∧ (0.210 : ℚ) ≤ MAX_VOLUME ∧
    volumeToIndex 0.210 = 1 ∧ volumeToIndexOld 0.210 = 0 ∧
    volumeToIndex 0.210 ≠ volumeToIndexOld 0.210 := by
  refine ⟨by norm_num [MIN_VOLUME], by norm_num [MAX_VOLUME], ?_, ?_, ?_⟩ <;>
    norm_num [volumeToIndex, volumeToIndexOld]

/-- C10: `solidsToIndex` computes its bucket thresholds as
`k * (5 - saturatedConcentration) / 25` for `k = 1..4`; hence for every
solute with saturated concentration at least 5 and every positive
precipitate amount all thresholds are nonpositive, so the classifier
returns the top region 4 no matter how small the precipitate amount is. -/
theorem solids_thresholds_and_high_saturation :
    (∀ p sat : ℚ, solidsToIndex p sat =
      if p ≤ (5 - sat) / 25 then 0
      else if p ≤ 2 * (5 - sat) / 25 then 1
      else if p ≤ 3 * (5 - sat) / 25 then 2
      else if p ≤ 4 * (5 - sat) / 25 then 3
      else 4) ∧
    (∀ p sat : ℚ, 5 ≤ sat → 0 < p → solidsToIndex p sat = 4) := by
  constructor
  · intro p sat
    rw [solidsToIndex_eq]
    have h1 : (5 - sat) / 5 / 5 = (5 - sat) / 25 := by ring
    have h2 : 2 * ((5 - sat) / 5) / 5 = 2 * (5 - sat) / 25 := by ring
    have h3 : 3 * ((5 - sat) / 5) / 5 = 3 * (5 - sat) / 25 := by ring
    have h4 : 4 * ((5 - sat) / 5) / 5 = 4 * (5 - sat) / 25 := by ring
    rw [h1, h2, h3, h4]
  · intro p sat h5 hp
    rw [solidsToIndex_eq]
    split_ifs with h1 h2 h3 h4 <;> first | rfl | linarith

/-- Witness for C10: a solute with saturated concentration 6 and a tiny
precipitate amount of 1/1000 mole already lands in the top solids
region. -/
theorem solids_high_saturation_witness :
    (5 : ℚ) ≤ 6 ∧ (0 : ℚ) < 1 / 1000 ∧ solidsToIndex (1 / 1000) 6 = 4 :=
  ⟨by norm_num, by norm_num,
    solids_thresholds_and_high_saturation.2 (1 / 1000) 6 (by norm_num) (by norm_num)⟩

end Molarity
